import Mathlib

/-!
Verification of the SciSciNet filtering-and-graph-analytics engine
(`backend/processors/data_processor.py` and `backend/processors/query_executor.py`)
against its natural-language specification.

The Python source is shallowly embedded: DuckDB SQL queries over parquet tables
become pure Lean functions over lists of rows, the in-process caches become
explicit state passing, and exception paths become explicit result values.
-/

namespace SciSciNet

/-- Columbia University OpenAlex institution id (data_processor.py line 41). -/
def COLUMBIA_INSTITUTION_ID : String := "I78577930"

/-- Computer Science field id (data_processor.py line 45). -/
def CS_FIELD_ID : String := "C41008148"

/-- A row of the papers table, with the attributes used by the graph builder
(paperid, year, cited_by_count, patent_count). -/
structure PaperRow where
  paperid : String
  year : Int
  cited_by_count : Nat
  patent_count : Nat
deriving DecidableEq, Repr

/-- A row of the paper-author-affiliation table. Author ids are opaque
tokens compared only for equality and by the canonical total id ordering
(the SQL comparison a1.authorid < a2.authorid); they are modelled as
naturals so that the ordering is the one of Nat. -/
structure Authorship where
  paperid : String
  authorid : Nat
  institutionid : String
  author_position : String
deriving DecidableEq, Repr

/-- A directed citation graph: nodes are paper ids attributed with
(year, citations, patents); edges carry an integer weight. -/
structure CitationGraph where
  nodes : List (String × Int × Nat × Nat)
  edges : List (String × String × Nat)
deriving DecidableEq, Repr

/-- The rows of the citation join in build_citation_network
(data_processor.py lines 383-397): rows of the paperrefs table whose citing
paper is in the filtered set (CTE citing_refs, inner join with fp1), then
inner-joined with the filtered set on the cited paper (fp2), keeping only
rows where citing and cited differ (the WHERE clause). -/
def citationRows (ids : List String) (refs : List (String × String)) :
    List (String × String) :=
  ((refs.filter (fun r => decide (r.1 ∈ ids))).filter
    (fun r => decide (r.2 ∈ ids) && decide (r.1 ≠ r.2)))

/-- The GROUP BY citing_paperid, cited_paperid with COUNT(*) as weight
(data_processor.py lines 389-396): one edge per distinct surviving pair,
weighted by its multiplicity in the join result. -/
def citationEdges (ids : List String) (refs : List (String × String)) :
    List (String × String × Nat) :=
  (citationRows ids refs).dedup.map
    (fun p => (p.1, p.2, (citationRows ids refs).count p))

/-- build_citation_network (data_processor.py lines 309-418), fresh-computation
path: on an empty paper table it returns the empty graph; otherwise nodes are
the papers of the table with their attributes and edges come from the citation
join restricted to the filtered paper-id set. -/
def build_citation_network (papers : List PaperRow) (refs : List (String × String)) :
    CitationGraph :=
  if papers = [] then ⟨[], []⟩
  else
    ⟨papers.map (fun p => (p.paperid, p.year, p.cited_by_count, p.patent_count)),
     citationEdges (papers.map PaperRow.paperid) refs⟩

/-- Membership in the citation-join rows unfolds to the three SQL conditions. -/
theorem mem_citationRows {ids : List String} {refs : List (String × String)}
    {p : String × String} (hp : p ∈ citationRows ids refs) :
    p ∈ refs ∧ p.1 ∈ ids ∧ p.2 ∈ ids ∧ p.1 ≠ p.2 := by
  unfold citationRows at hp
  simp only [List.mem_filter, Bool.and_eq_true, decide_eq_true_eq] at hp
  exact ⟨hp.1.1, hp.1.2, hp.2.1, hp.2.2⟩

/-- C1: every edge (u, v) produced by build_citation_network on a non-empty
filtered paper table satisfies u ≠ v, both u and v lie in the filtered
paper-id set, and the weight is the number of duplicate directed pairs (u, v)
in the Citation relation restricted to the filtered set. -/
theorem citation_network_edge_invariant
    (papers : List PaperRow) (refs : List (String × String))
    (hne : papers ≠ []) (e : String × String × Nat)
    (he : e ∈ (build_citation_network papers refs).edges) :
    e.1 ≠ e.2.1 ∧
    e.1 ∈ papers.map PaperRow.paperid ∧
    e.2.1 ∈ papers.map PaperRow.paperid ∧
    e.2.2 = (refs.filter (fun r =>
      decide (r.1 ∈ papers.map PaperRow.paperid) &&
      decide (r.2 ∈ papers.map PaperRow.paperid))).count (e.1, e.2.1) := by
  unfold build_citation_network at he
  rw [if_neg hne] at he
  unfold citationEdges at he
  simp only [List.mem_map] at he
  obtain ⟨p, hpdedup, hpe⟩ := he
  have hp : p ∈ citationRows (papers.map PaperRow.paperid) refs :=
    List.mem_dedup.mp hpdedup
  obtain ⟨hrefs, h1, h2, hne2⟩ := mem_citationRows hp
  subst hpe
  refine ⟨hne2, h1, h2, ?_⟩
  show (citationRows (papers.map PaperRow.paperid) refs).count (p.1, p.2) = _
  unfold citationRows
  have hpp : p = (p.1, p.2) := rfl
  rw [← hpp]
  rw [List.count_filter (by simp [h2, hne2]), List.count_filter (by simp [h1]),
    List.count_filter (by simp [h1, h2])]

/-- Witness for C1 on a concrete two-paper corpus with a duplicated citation,
a self-citation and a citation leaving the filtered set. -/
theorem citation_network_edge_invariant_witness :
    ("A" : String) ≠ "B" ∧
    ("A" : String) ∈ ([⟨"A", 2020, 0, 0⟩, ⟨"B", 2021, 1, 0⟩] : List PaperRow).map PaperRow.paperid ∧
    ("B" : String) ∈ ([⟨"A", 2020, 0, 0⟩, ⟨"B", 2021, 1, 0⟩] : List PaperRow).map PaperRow.paperid ∧
    2 = (([("A", "B"), ("A", "B"), ("A", "A"), ("B", "C")] : List (String × String)).filter
      (fun r =>
        decide (r.1 ∈ ([⟨"A", 2020, 0, 0⟩, ⟨"B", 2021, 1, 0⟩] : List PaperRow).map PaperRow.paperid) &&
        decide (r.2 ∈ ([⟨"A", 2020, 0, 0⟩, ⟨"B", 2021, 1, 0⟩] : List PaperRow).map PaperRow.paperid))).count
      ("A", "B") :=
  citation_network_edge_invariant
    [⟨"A", 2020, 0, 0⟩, ⟨"B", 2021, 1, 0⟩]
    [("A", "B"), ("A", "B"), ("A", "A"), ("B", "C")]
    (by decide) ("A", "B", 2) (by decide)

/-- CTE columbia_authors (data_processor.py lines 451-456): distinct
(paperid, authorid) rows of the affiliation table restricted to the target
institution and to papers of the filtered set. -/
def columbiaAuthors (ids : List String) (affil : List Authorship) :
    List (String × Nat) :=
  ((affil.filter (fun a =>
      decide (a.institutionid = COLUMBIA_INSTITUTION_ID) && decide (a.paperid ∈ ids))).map
    (fun a => (a.paperid, a.authorid))).dedup

/-- CTE paper_author_counts (data_processor.py lines 457-463): number of
qualifying (distinct institution-affiliated) authors of one paper. -/
def paperAuthorCount (ca : List (String × Nat)) (p : String) : Nat :=
  (ca.filter (fun r => decide (r.1 = p))).length

/-- CTE limited_authors (data_processor.py lines 464-469): qualifying
author rows of papers with at most 50 qualifying co-authors. -/
def limitedAuthors (ca : List (String × Nat)) : List (String × Nat) :=
  ca.filter (fun r => decide (paperAuthorCount ca r.1 ≤ 50))

/-- The self-join of limited_authors on paperid with authorid strictly
increasing (data_processor.py lines 470-484); because the join condition
already forces a1.authorid < a2.authorid, the canonicalizing CASE expressions
reduce to (a1.authorid, a2.authorid). -/
def coauthorPairs (la : List (String × Nat)) : List (Nat × Nat) :=
  la.flatMap (fun r1 =>
    (la.filter (fun r2 => decide (r2.1 = r1.1) && decide (r1.2 < r2.2))).map
      (fun r2 => (r1.2, r2.2)))

/-- The GROUP BY author1, author2 with COUNT(*) as weight
(data_processor.py lines 470-485). -/
def collabEdges (ids : List String) (affil : List Authorship) :
    List (Nat × Nat × Nat) :=
  (coauthorPairs (limitedAuthors (columbiaAuthors ids affil))).dedup.map
    (fun p => (p.1, p.2,
      (coauthorPairs (limitedAuthors (columbiaAuthors ids affil))).count p))

/-- The distinct filtered papers on which both authors a and b are affiliated
with the target institution, restricted to papers that pass the 50-co-author
cardinality guard. -/
def coAffiliatedPapers (ids : List String) (affil : List Authorship)
    (a b : Nat) : List String :=
  (((columbiaAuthors ids affil).map Prod.fst).dedup).filter (fun p =>
    decide (paperAuthorCount (columbiaAuthors ids affil) p ≤ 50) &&
    decide ((p, a) ∈ columbiaAuthors ids affil) &&
    decide ((p, b) ∈ columbiaAuthors ids affil))

/-- An undirected collaboration graph. -/
structure CollabGraph where
  nodes : List Nat
  edges : List (Nat × Nat × Nat)
deriving DecidableEq, Repr

/-- Node set of build_collaboration_network (data_processor.py lines 489-505):
all_authors collects exactly the endpoints of the produced co-author pairs,
and each G.add_edge also only introduces its two endpoints. -/
def collabNodes (ids : List String) (affil : List Authorship) : List Nat :=
  ((collabEdges ids affil).flatMap (fun e => [e.1, e.2.1])).dedup

/-- build_collaboration_network (data_processor.py lines 420-515): the empty
graph on an empty paper table, otherwise the grouped co-author pairs as
weighted edges and their endpoints as nodes. -/
def build_collaboration_network (papers : List PaperRow) (affil : List Authorship) :
    CollabGraph :=
  if papers = [] then ⟨[], []⟩
  else ⟨collabNodes (papers.map PaperRow.paperid) affil,
        collabEdges (papers.map PaperRow.paperid) affil⟩

/-- Counting occurrences inside a flatMap decomposes into a sum over the
outer list. -/
theorem count_flatMap_eq_sum {α β : Type} [BEq β] (l : List α) (f : α → List β) (b : β) :
    (l.flatMap f).count b = (l.map (fun a => (f a).count b)).sum := by
  induction l with
  | nil => rfl
  | cons x xs ih => simp [List.flatMap_cons, List.count_append, ih]

/-- Summing a boolean indicator over a list counts the matching elements. -/
theorem sum_map_ite_one {α : Type} (l : List α) (p : α → Bool) :
    (l.map (fun x => if p x then 1 else 0)).sum = (l.filter p).length := by
  induction l with
  | nil => rfl
  | cons x xs ih =>
    by_cases h : p x = true <;> simp [List.filter_cons, h, ih, Nat.add_comm]

/-- Counting a value in a mapped list counts preimages under the map. -/
theorem count_map_eq_countP {α β : Type} [BEq β] (g : α → β) (l : List α) (b : β) :
    (l.map g).count b = l.countP (fun x => g x == b) := by
  induction l with
  | nil => rfl
  | cons x xs ih => simp [List.count_cons, List.countP_cons, ih]

/-- On a duplicate-free list, a predicate satisfied exactly at one value
counts 1 or 0 according to membership of that value. -/
theorem countP_eq_ite_of_nodup {α : Type} [DecidableEq α] {l : List α} (hnd : l.Nodup)
    {p : α → Bool} {v : α} (hp : ∀ x, p x = true ↔ x = v) :
    l.countP p = if v ∈ l then 1 else 0 := by
  induction l with
  | nil => simp
  | cons y ys ih =>
    rw [List.nodup_cons] at hnd
    rw [List.countP_cons]
    by_cases hy : p y = true
    · have hyv : y = v := (hp y).mp hy
      subst hyv
      have h0 : ys.countP p = 0 := by
        rw [List.countP_eq_zero]
        intro a ha hpa
        exact hnd.1 (((hp a).mp hpa) ▸ ha)
      simp [h0, hy]
    · have hyv : ¬ (v = y) := fun h => hy ((hp y).mpr h.symm)
      rw [ih hnd.2]
      simp [List.mem_cons, hy, hyv]

/-- Every produced co-author pair is strictly increasing in the canonical
author-id order. -/
theorem coauthorPairs_lt {la : List (String × Nat)} {x : Nat × Nat}
    (hx : x ∈ coauthorPairs la) : x.1 < x.2 := by
  unfold coauthorPairs at hx
  simp only [List.mem_flatMap, List.mem_map, List.mem_filter, Bool.and_eq_true,
    decide_eq_true_eq] at hx
  obtain ⟨r1, _, r2, ⟨_, _, hq⟩, hxe⟩ := hx
  cases hxe
  exact hq

/-- The multiplicity of a pair (a, b) with a < b in the self-join of a
duplicate-free author-row list equals the number of rows (p, a) whose paper
also carries the row (p, b). -/
theorem coauthorPairs_count {la : List (String × Nat)} (hnd : la.Nodup)
    {a b : Nat} (hab : a < b) :
    (coauthorPairs la).count (a, b) =
      (la.filter (fun r => decide (r.2 = a) && decide ((r.1, b) ∈ la))).length := by
  unfold coauthorPairs
  rw [count_flatMap_eq_sum]
  have hinner : ∀ r1 ∈ la,
      ((la.filter (fun r2 => decide (r2.1 = r1.1) && decide (r1.2 < r2.2))).map
        (fun r2 => (r1.2, r2.2))).count (a, b) =
      if (decide (r1.2 = a) && decide ((r1.1, b) ∈ la)) then 1 else 0 := by
    intro r1 _
    rw [count_map_eq_countP, List.countP_filter]
    by_cases h1 : r1.2 = a
    · have hiff : ∀ x : String × Nat,
          ((((r1.2, x.2) == (a, b)) &&
            (decide (x.1 = r1.1) && decide (r1.2 < x.2))) = true) ↔ x = (r1.1, b) := by
        intro x
        constructor
        · intro hx
          simp only [Bool.and_eq_true, beq_iff_eq, decide_eq_true_eq, Prod.mk.injEq] at hx
          exact Prod.ext hx.2.1 hx.1.2
        · intro hx
          subst hx
          simp [h1, hab]
      rw [countP_eq_ite_of_nodup hnd hiff]
      by_cases h2 : (r1.1, b) ∈ la <;> simp [h1, h2]
    · have hzero : (la.countP (fun x =>
          ((r1.2, x.2) == (a, b)) && (decide (x.1 = r1.1) && decide (r1.2 < x.2)))) = 0 := by
        rw [List.countP_eq_zero]
        intro x _ hx
        simp only [Bool.and_eq_true, beq_iff_eq, Prod.mk.injEq] at hx
        exact h1 hx.1.1
      rw [hzero]
      simp [h1]
  rw [List.map_congr_left hinner, sum_map_ite_one]

/-- The filtered-row count of coauthorPairs_count equals the number of
distinct guarded papers on which both authors are institution-affiliated. -/
theorem filter_length_eq_coAffiliatedPapers (ids : List String) (affil : List Authorship)
    (a b : Nat) :
    ((limitedAuthors (columbiaAuthors ids affil)).filter (fun r =>
        decide (r.2 = a) &&
        decide ((r.1, b) ∈ limitedAuthors (columbiaAuthors ids affil)))).length =
    (coAffiliatedPapers ids affil a b).length := by
  unfold coAffiliatedPapers
  set ca := columbiaAuthors ids affil with hca
  set la := limitedAuthors ca with hla
  have hndca : ca.Nodup := List.nodup_dedup _
  have hndla : la.Nodup := hndca.filter _
  have hmemla : ∀ (p : String) (x : Nat), ((p, x) ∈ la ↔ ((p, x) ∈ ca ∧ paperAuthorCount ca p ≤ 50)) := by
    intro p x
    rw [hla]
    unfold limitedAuthors
    simp [List.mem_filter]
  set L1 := la.filter (fun r => decide (r.2 = a) && decide ((r.1, b) ∈ la)) with hL1
  set L2 := ((ca.map Prod.fst).dedup).filter (fun p =>
    decide (paperAuthorCount ca p ≤ 50) && decide ((p, a) ∈ ca) && decide ((p, b) ∈ ca))
    with hL2
  have hndL1 : L1.Nodup := hndla.filter _
  have hndL2 : L2.Nodup := (List.nodup_dedup _).filter _
  have hndmap : (L1.map Prod.fst).Nodup := by
    refine List.Nodup.map_on ?_ hndL1
    intro x hx y hy hxy
    obtain ⟨_, hpx⟩ := List.mem_filter.mp hx
    obtain ⟨_, hpy⟩ := List.mem_filter.mp hy
    simp only [Bool.and_eq_true, decide_eq_true_eq] at hpx hpy
    exact Prod.ext hxy (hpx.1.trans hpy.1.symm)
  have hmem1 : ∀ p : String, (p ∈ L1.map Prod.fst ↔ ((p, a) ∈ la ∧ (p, b) ∈ la)) := by
    intro p
    constructor
    · intro hp
      obtain ⟨r, hr, hrp⟩ := List.mem_map.mp hp
      obtain ⟨hrla, hpred⟩ := List.mem_filter.mp hr
      simp only [Bool.and_eq_true, decide_eq_true_eq] at hpred
      have hre : r = (p, a) := Prod.ext hrp hpred.1
      subst hre
      exact ⟨hrla, hpred.2⟩
    · intro hp
      exact List.mem_map.mpr ⟨(p, a), List.mem_filter.mpr ⟨hp.1, by simp [hp.2]⟩, rfl⟩
  have hmem2 : ∀ p : String, (p ∈ L2 ↔ ((p, a) ∈ la ∧ (p, b) ∈ la)) := by
    intro p
    rw [hL2, List.mem_filter]
    simp only [Bool.and_eq_true, decide_eq_true_eq, List.mem_dedup]
    constructor
    · intro hp
      exact ⟨(hmemla p a).mpr ⟨hp.2.1.2, hp.2.1.1⟩, (hmemla p b).mpr ⟨hp.2.2, hp.2.1.1⟩⟩
    · intro hp
      obtain ⟨hpa, hcnt⟩ := (hmemla p a).mp hp.1
      obtain ⟨hpb, _⟩ := (hmemla p b).mp hp.2
      exact ⟨List.mem_map.mpr ⟨(p, a), hpa, rfl⟩, ⟨hcnt, hpa⟩, hpb⟩
  have hperm : List.Perm (L1.map Prod.fst) L2 :=
    (List.perm_ext_iff_of_nodup hndmap hndL2).mpr
      (fun p => (hmem1 p).trans (hmem2 p).symm)
  have hlen : (L1.map Prod.fst).length = L2.length := hperm.length_eq
  rw [List.length_map] at hlen
  exact hlen

/-- C2: every edge (a, b, w) of the collaboration graph has a < b in the
canonical author-id order, its weight counts exactly the filtered papers on
which both a and b are co-affiliated with the target institution (among the
papers passing the cardinality guard), and every paper contributing to the
weight has at most 50 qualifying co-authors, so no edge is derived from a
paper with more than 50 qualifying co-authors. -/
theorem collaboration_edge_invariant (papers : List PaperRow) (affil : List Authorship)
    (e : Nat × Nat × Nat)
    (he : e ∈ (build_collaboration_network papers affil).edges) :
    e.1 < e.2.1 ∧
    e.2.2 = (coAffiliatedPapers (papers.map PaperRow.paperid) affil e.1 e.2.1).length ∧
    ∀ p ∈ coAffiliatedPapers (papers.map PaperRow.paperid) affil e.1 e.2.1,
      paperAuthorCount (columbiaAuthors (papers.map PaperRow.paperid) affil) p ≤ 50 := by
  unfold build_collaboration_network at he
  by_cases hne : papers = []
  · rw [if_pos hne] at he
    simp at he
  · rw [if_neg hne] at he
    unfold collabEdges at he
    simp only [List.mem_map] at he
    obtain ⟨x, hxd, hxe⟩ := he
    have hx : x ∈ coauthorPairs (limitedAuthors (columbiaAuthors
        (papers.map PaperRow.paperid) affil)) := List.mem_dedup.mp hxd
    have hab : x.1 < x.2 := coauthorPairs_lt hx
    have hnd : (limitedAuthors (columbiaAuthors (papers.map PaperRow.paperid) affil)).Nodup :=
      (List.nodup_dedup _).filter _
    subst hxe
    refine ⟨hab, ?_, ?_⟩
    · show (coauthorPairs _).count (x.1, x.2) = _
      rw [coauthorPairs_count hnd hab,
        filter_length_eq_coAffiliatedPapers (papers.map PaperRow.paperid) affil x.1 x.2]
    · intro p hp
      unfold coAffiliatedPapers at hp
      obtain ⟨_, hpred⟩ := List.mem_filter.mp hp
      simp only [Bool.and_eq_true, decide_eq_true_eq] at hpred
      exact hpred.1.1

/-- Witness for C2 on a concrete corpus of two filtered papers, each
co-authored by the Columbia-affiliated authors 1 and 2. -/
theorem collaboration_edge_invariant_witness :
    (1 : Nat) < 2 ∧
    2 = (coAffiliatedPapers
      (([⟨"P1", 2020, 0, 0⟩, ⟨"P2", 2021, 0, 0⟩] : List PaperRow).map PaperRow.paperid)
      [⟨"P1", 1, "I78577930", "first"⟩, ⟨"P1", 2, "I78577930", "middle"⟩,
       ⟨"P2", 1, "I78577930", "first"⟩, ⟨"P2", 2, "I78577930", "last"⟩] 1 2).length ∧
    ∀ p ∈ coAffiliatedPapers
      (([⟨"P1", 2020, 0, 0⟩, ⟨"P2", 2021, 0, 0⟩] : List PaperRow).map PaperRow.paperid)
      [⟨"P1", 1, "I78577930", "first"⟩, ⟨"P1", 2, "I78577930", "middle"⟩,
       ⟨"P2", 1, "I78577930", "first"⟩, ⟨"P2", 2, "I78577930", "last"⟩] 1 2,
      paperAuthorCount (columbiaAuthors
        (([⟨"P1", 2020, 0, 0⟩, ⟨"P2", 2021, 0, 0⟩] : List PaperRow).map PaperRow.paperid)
        [⟨"P1", 1, "I78577930", "first"⟩, ⟨"P1", 2, "I78577930", "middle"⟩,
         ⟨"P2", 1, "I78577930", "first"⟩, ⟨"P2", 2, "I78577930", "last"⟩]) p ≤ 50 :=
  collaboration_edge_invariant
    [⟨"P1", 2020, 0, 0⟩, ⟨"P2", 2021, 0, 0⟩]
    [⟨"P1", 1, "I78577930", "first"⟩, ⟨"P1", 2, "I78577930", "middle"⟩,
     ⟨"P2", 1, "I78577930", "first"⟩, ⟨"P2", 2, "I78577930", "last"⟩]
    (1, 2, 2) (by decide)

/-- The node set described by the specification for the collaboration graph:
all authors affiliated with the target institution who appear on any paper of
the filtered set (not restricted to first authors). Stated from the words of
the spec for comparison with the node set the source actually produces. -/
def specCollabNodes (ids : List String) (affil : List Authorship) : List Nat :=
  ((affil.filter (fun a =>
      decide (a.institutionid = COLUMBIA_INSTITUTION_ID) && decide (a.paperid ∈ ids))).map
    Authorship.authorid).dedup

/-- Counterexample for C8: a filtered corpus with a single paper whose sole
qualifying author is Columbia-affiliated. The spec node set contains that
author, but the graph returned by build_collaboration_network has no node at
all, because nodes are only ever created as endpoints of co-author pairs. -/
theorem collab_nodes_counterexample :
    (build_collaboration_network [⟨"P1", 2020, 0, 0⟩]
      [⟨"P1", 1, "I78577930", "first"⟩]).nodes = [] ∧
    1 ∈ specCollabNodes
      (([⟨"P1", 2020, 0, 0⟩] : List PaperRow).map PaperRow.paperid)
      [⟨"P1", 1, "I78577930", "first"⟩] := by
  decide

/-- A pair lies in the co-author self-join exactly when some paper carries
both of its authors, in increasing order. -/
theorem mem_coauthorPairs_iff {la : List (String × Nat)} {x : Nat × Nat} :
    x ∈ coauthorPairs la ↔ ∃ p, (p, x.1) ∈ la ∧ (p, x.2) ∈ la ∧ x.1 < x.2 := by
  unfold coauthorPairs
  simp only [List.mem_flatMap, List.mem_map, List.mem_filter, Bool.and_eq_true,
    decide_eq_true_eq]
  constructor
  · rintro ⟨r1, hr1, r2, ⟨hr2, hpp, hlt⟩, hxe⟩
    subst hxe
    exact ⟨r1.1, hr1, by rw [← hpp]; exact hr2, hlt⟩
  · rintro ⟨p, hpa, hpb, hlt⟩
    exact ⟨(p, x.1), hpa, (p, x.2), ⟨hpb, rfl, hlt⟩, rfl⟩

/-- C8 as amended: a is a node of the collaboration graph iff the paper table
is non-empty and some filtered paper passing the cardinality guard carries
both a and a distinct institution-affiliated co-author. In particular an
institution-affiliated author who is the sole qualifying author on all their
papers is NOT a node of the graph. -/
theorem collab_nodes_amended (papers : List PaperRow) (affil : List Authorship) (a : Nat) :
    a ∈ (build_collaboration_network papers affil).nodes ↔
    (papers ≠ [] ∧ ∃ p b, b ≠ a ∧
      (p, a) ∈ limitedAuthors (columbiaAuthors (papers.map PaperRow.paperid) affil) ∧
      (p, b) ∈ limitedAuthors (columbiaAuthors (papers.map PaperRow.paperid) affil)) := by
  unfold build_collaboration_network
  by_cases hne : papers = []
  · rw [if_pos hne]
    simp [hne]
  · rw [if_neg hne]
    show a ∈ collabNodes (papers.map PaperRow.paperid) affil ↔ _
    unfold collabNodes collabEdges
    rw [List.mem_dedup]
    simp only [List.mem_flatMap, List.mem_map, ne_eq, hne, not_false_iff, true_and]
    constructor
    · rintro ⟨e, ⟨x, hxd, hxe⟩, hmem⟩
      subst hxe
      obtain ⟨p, hpa, hpb, hlt⟩ := mem_coauthorPairs_iff.mp (List.mem_dedup.mp hxd)
      simp only [List.mem_cons, List.not_mem_nil, or_false] at hmem
      rcases hmem with h | h
      · subst h
        exact ⟨p, x.2, Nat.ne_of_gt hlt, hpa, hpb⟩
      · subst h
        exact ⟨p, x.1, Nat.ne_of_lt hlt, hpb, hpa⟩
    · rintro ⟨p, b, hba, hpa, hpb⟩
      rcases Nat.lt_or_ge a b with hab | hba2
      · refine ⟨((a, b).1, (a, b).2,
          (coauthorPairs (limitedAuthors (columbiaAuthors (papers.map PaperRow.paperid) affil))).count (a, b)),
          ⟨(a, b), List.mem_dedup.mpr (mem_coauthorPairs_iff.mpr ⟨p, hpa, hpb, hab⟩), rfl⟩, ?_⟩
        simp
      · have hba3 : b < a := Nat.lt_of_le_of_ne hba2 hba
        refine ⟨((b, a).1, (b, a).2,
          (coauthorPairs (limitedAuthors (columbiaAuthors (papers.map PaperRow.paperid) affil))).count (b, a)),
          ⟨(b, a), List.mem_dedup.mpr (mem_coauthorPairs_iff.mpr ⟨p, hpb, hpa, hba3⟩), rfl⟩, ?_⟩
        simp

/-- The in-process per-years cache of _get_filtered_paper_ids
(data_processor.py line 98), modelled as an association list from the years
parameter to the cached paper-id set. -/
structure FilterState where
  cache : List (Nat × List String)
deriving DecidableEq, Repr

/-- One call of _get_filtered_paper_ids (data_processor.py lines 115-246).
The disk caches (hash-tagged file, legacy untagged file) and the defining
DuckDB store query are modelled as oracles from the years parameter to an
optional paper-id set, where none models a missing file or a raised
exception. Returns the paper-id set, the updated in-process cache, and
whether the defining store query was executed. Every successful path inserts
the result into the in-process cache before returning; the store-failure path
(lines 244-246) prints, returns the empty set, and caches nothing. -/
def getFilteredPaperIds (disk oldDisk store : Nat → Option (List String))
    (st : FilterState) (years : Nat) : List String × FilterState × Bool :=
  match st.cache.lookup years with
  | some ids => (ids, st, false)
  | none =>
    match disk years with
    | some ids => (ids, ⟨(years, ids) :: st.cache⟩, false)
    | none =>
      match oldDisk years with
      | some ids => (ids, ⟨(years, ids) :: st.cache⟩, false)
      | none =>
        match store years with
        | some ids => (ids, ⟨(years, ids) :: st.cache⟩, true)
        | none => ([], st, true)

/-- Counterexample for C3: with no disk cache and a store whose defining
query raises, the first call returns the empty set without caching it, so the
second sequential call with the same window executes a store query again,
contradicting the unconditional claim that the second call performs no store
query. -/
theorem filtered_ids_idempotence_counterexample :
    (getFilteredPaperIds (fun _ => none) (fun _ => none) (fun _ => none)
      ((getFilteredPaperIds (fun _ => none) (fun _ => none) (fun _ => none)
        ⟨[]⟩ 5).2.1) 5).2.2 = true := by
  rfl

/-- C3 as amended: calling _get_filtered_paper_ids twice in sequence with the
same lookback window returns identical paper-id sets and the second call
performs no store query, provided the defining store query does not raise
(every non-raising path caches its result in-process before returning; the
store-failure path returns the empty set uncached, and a second call then
queries the store again). -/
theorem filtered_ids_idempotent_cached
    (disk oldDisk store : Nat → Option (List String)) (st : FilterState)
    (years : Nat) (hstore : store years ≠ none) :
    (getFilteredPaperIds disk oldDisk store
      (getFilteredPaperIds disk oldDisk store st years).2.1 years).1 =
      (getFilteredPaperIds disk oldDisk store st years).1 ∧
    (getFilteredPaperIds disk oldDisk store
      (getFilteredPaperIds disk oldDisk store st years).2.1 years).2.2 = false := by
  unfold getFilteredPaperIds
  cases hc : st.cache.lookup years with
  | some ids => simp [hc]
  | none =>
    cases hd : disk years with
    | some ids => simp [hc, hd, List.lookup]
    | none =>
      cases ho : oldDisk years with
      | some ids => simp [hc, hd, ho, List.lookup]
      | none =>
        cases hs : store years with
        | some ids => simp [hc, hd, ho, hs, List.lookup]
        | none => exact absurd hs hstore

/-- Witness for C3 as amended: a healthy store serving the window 5. -/
theorem filtered_ids_idempotent_cached_witness :
    (getFilteredPaperIds (fun _ => none) (fun _ => none) (fun _ => some ["P1"])
      ((getFilteredPaperIds (fun _ => none) (fun _ => none) (fun _ => some ["P1"])
        ⟨[]⟩ 5).2.1) 5).1 =
      (getFilteredPaperIds (fun _ => none) (fun _ => none) (fun _ => some ["P1"])
        ⟨[]⟩ 5).1 ∧
    (getFilteredPaperIds (fun _ => none) (fun _ => none) (fun _ => some ["P1"])
      ((getFilteredPaperIds (fun _ => none) (fun _ => none) (fun _ => some ["P1"])
        ⟨[]⟩ 5).2.1) 5).2.2 = false :=
  filtered_ids_idempotent_cached (fun _ => none) (fun _ => none)
    (fun _ => some ["P1"]) ⟨[]⟩ 5 (by simp)

/-- C10: when the in-process cache misses, no disk cache exists and the
defining store query raises, _get_filtered_paper_ids returns the empty set
rather than propagating the error, and that return value is identical to the
one produced by a healthy store whose query genuinely matches no papers. -/
theorem store_failure_returns_empty (st : FilterState) (years : Nat)
    (hmiss : st.cache.lookup years = none) :
    (getFilteredPaperIds (fun _ => none) (fun _ => none) (fun _ => none) st years).1 = [] ∧
    (getFilteredPaperIds (fun _ => none) (fun _ => none) (fun _ => none) st years).1 =
      (getFilteredPaperIds (fun _ => none) (fun _ => none) (fun _ => some []) st years).1 := by
  unfold getFilteredPaperIds
  simp [hmiss]

/-- Witness for C10 at the empty initial cache and window 5. -/
theorem store_failure_returns_empty_witness :
    (getFilteredPaperIds (fun _ => none) (fun _ => none) (fun _ => none) ⟨[]⟩ 5).1 = [] ∧
    (getFilteredPaperIds (fun _ => none) (fun _ => none) (fun _ => none) ⟨[]⟩ 5).1 =
      (getFilteredPaperIds (fun _ => none) (fun _ => none) (fun _ => some []) ⟨[]⟩ 5).1 :=
  store_failure_returns_empty ⟨[]⟩ 5 (by rfl)

/-- The backing papers table for filter_columbia_cs_papers, with an explicit
flag recording whether the year column is present in its schema (the join
SELECT p.* keeps the schema of the papers table). -/
structure PapersTable where
  hasYearColumn : Bool
  rows : List PaperRow
deriving DecidableEq, Repr

/-- Outcome of filter_columbia_cs_papers: a result table, or the raised
ValueError on a missing year column (the SchemaError of the spec). -/
inductive FilterPapersResult where
  | table (rows : List PaperRow)
  | schemaError (msg : String)
deriving DecidableEq, Repr

/-- The inner join of the papers table with the filtered id set
(data_processor.py lines 281-289). -/
def joinPapers (tbl : PapersTable) (ids : List String) : List PaperRow :=
  tbl.rows.filter (fun p => decide (p.paperid ∈ ids))

/-- filter_columbia_cs_papers (data_processor.py lines 248-307) on cold
caches: an empty filtered id set returns an empty table (line 276), an empty
join result returns an empty table (line 294), a non-empty join result
lacking the year column raises (line 297), otherwise the joined table is
returned. -/
def filter_columbia_cs_papers (tbl : PapersTable) (ids : List String) :
    FilterPapersResult :=
  if ids = [] then .table []
  else
    if joinPapers tbl ids = [] then .table []
    else if tbl.hasYearColumn then .table (joinPapers tbl ids)
    else .schemaError "DataFrame missing required year column"

/-- C4: filter_columbia_cs_papers returns an empty table, not an error, when
the filter yields no papers, and raises the SchemaError when the joined
non-empty result lacks the expected year column. -/
theorem filter_papers_error_policy (tbl : PapersTable) (ids : List String) :
    (joinPapers tbl ids = [] → filter_columbia_cs_papers tbl ids = .table []) ∧
    (joinPapers tbl ids ≠ [] → tbl.hasYearColumn = false →
      filter_columbia_cs_papers tbl ids =
        .schemaError "DataFrame missing required year column") := by
  unfold filter_columbia_cs_papers
  by_cases hids : ids = []
  · constructor
    · intro _
      rw [if_pos hids]
    · intro hj _
      exact absurd (by simp [joinPapers, hids]) hj
  · rw [if_neg hids]
    constructor
    · intro hj
      rw [if_pos hj]
    · intro hj hy
      rw [if_neg hj, hy]
      simp

/-- Witness for C4: an id set matching no paper row yields the empty table;
a non-empty join against a schema without the year column raises. -/
theorem filter_papers_error_policy_witness :
    filter_columbia_cs_papers ⟨true, []⟩ ["P1"] = .table [] ∧
    filter_columbia_cs_papers ⟨false, [⟨"P1", 2020, 0, 0⟩]⟩ ["P1"] =
      .schemaError "DataFrame missing required year column" :=
  ⟨(filter_papers_error_policy ⟨true, []⟩ ["P1"]).1 (by decide),
   (filter_papers_error_policy ⟨false, [⟨"P1", 2020, 0, 0⟩]⟩ ["P1"]).2
     (by decide) rfl⟩

/-- A networkx graph object: a directed or an undirected simple graph, given
by its node list and its edge list (in an undirected graph an edge (u, v)
also connects v to u). Self-loops are absent, as in the graphs the processor
builds. -/
structure NxGraph where
  directed : Bool
  nodes : List Nat
  edges : List (Nat × Nat)
deriving DecidableEq, Repr

/-- In Python, networkx.DiGraph is a subclass of networkx.Graph, so the test
isinstance(graph, nx.Graph) at data_processor.py line 555 succeeds for every
graph object, directed or not. -/
def isinstance_nx_Graph (_g : NxGraph) : Bool := true

/-- isinstance(graph, nx.DiGraph) (data_processor.py line 536) holds exactly
for directed graphs. -/
def isinstance_nx_DiGraph (g : NxGraph) : Bool := g.directed

/-- Adjacency indicator of the graph. -/
def adjN (g : NxGraph) (u v : Nat) : Nat :=
  if g.directed then (if (u, v) ∈ g.edges then 1 else 0)
  else (if (u, v) ∈ g.edges ∨ (v, u) ∈ g.edges then 1 else 0)

/-- Symmetrized adjacency used by directed clustering. -/
def symA (g : NxGraph) (u v : Nat) : Nat := adjN g u v + adjN g v u

/-- Directed triangle count of networkx (the diagonal entry of the cube of
the symmetrized adjacency matrix). -/
def dirTriangles (g : NxGraph) (u : Nat) : Nat :=
  (g.nodes.map (fun j =>
    (g.nodes.map (fun k => symA g u j * symA g j k * symA g k u)).sum)).sum

/-- Total (in plus out) degree. -/
def degTotal (g : NxGraph) (u : Nat) : Nat :=
  (g.nodes.map (fun j => adjN g u j + adjN g j u)).sum

/-- Reciprocal (bidirectional) degree. -/
def degBi (g : NxGraph) (u : Nat) : Nat :=
  (g.nodes.map (fun j => adjN g u j * adjN g j u)).sum

/-- Undirected closed-triple count (the diagonal entry of the cube of the
adjacency matrix). -/
def undirTriangles (g : NxGraph) (u : Nat) : Nat :=
  (g.nodes.map (fun j =>
    (g.nodes.map (fun k => adjN g u j * adjN g j k * adjN g k u)).sum)).sum

/-- Undirected degree. -/
def degUndir (g : NxGraph) (u : Nat) : Nat :=
  (g.nodes.map (fun j => adjN g u j)).sum

/-- Model of networkx nx.clustering on a self-loop-free graph: the directed
local clustering coefficient of Fagiolo for directed graphs, and the usual
triangle-based local clustering coefficient for undirected graphs; in both
cases 0 when the node closes no triangle. -/
def nx_clustering (g : NxGraph) (u : Nat) : ℚ :=
  if g.directed then
    if dirTriangles g u = 0 then 0
    else (dirTriangles g u : ℚ) /
      ((((degTotal g u : ℚ) * ((degTotal g u : ℚ) - 1)) - 2 * (degBi g u : ℚ)) * 2)
  else
    if undirTriangles g u = 0 then 0
    else (undirTriangles g u : ℚ) /
      ((degUndir g u : ℚ) * ((degUndir g u : ℚ) - 1))

/-- The degree reported by graph.degree(node): in plus out degree for a
directed graph, incident edge count for an undirected one. -/
def nxDegree (g : NxGraph) (u : Nat) : Nat :=
  if g.directed then
    (g.edges.filter (fun e => decide (e.1 = u))).length +
      (g.edges.filter (fun e => decide (e.2 = u))).length
  else (g.edges.filter (fun e => decide (e.1 = u) || decide (e.2 = u))).length

/-- The betweenness-centrality mode chosen by calculate_node_metrics
(data_processor.py lines 547-552): exact below 500 nodes, otherwise sampled
with k = min(100, n). -/
inductive BetwChoice where
  | exact
  | sampled (k : Nat)
deriving DecidableEq, Repr

/-- The dispatch of data_processor.py lines 548-552. -/
def betweennessChoice (g : NxGraph) : BetwChoice :=
  if g.nodes.length < 500 then .exact else .sampled (min 100 g.nodes.length)

/-- The per-node metrics record assembled by calculate_node_metrics. -/
structure NodeMetrics where
  degree : Nat
  degree_centrality : ℚ
  importance : ℚ
  betweenness : ℚ
  clustering : ℚ
deriving DecidableEq, Repr

/-- calculate_node_metrics (data_processor.py lines 517-570). The library
computations whose internals do not decide any claim are oracles: impPR and
impEV model the PageRank and eigenvector-centrality scores (with their
convergence fallbacks), betwExact and betwSampled model exact and sampled
nx.betweenness_centrality. The clustering branch reproduces the
source's isinstance dispatch: because isinstance(graph, nx.Graph) is also
true for a DiGraph, nx.clustering is invoked for every graph and the
all-zero branch of line 558 is unreachable. -/
def calculate_node_metrics (g : NxGraph) (impPR impEV : Nat → ℚ)
    (betwExact : NxGraph → Nat → ℚ) (betwSampled : NxGraph → Nat → Nat → ℚ) :
    List (Nat × NodeMetrics) :=
  if g.nodes.length = 0 then []
  else
    g.nodes.map (fun u =>
      (u,
        { degree := nxDegree g u
          degree_centrality := (nxDegree g u : ℚ) / ((g.nodes.length : ℚ) - 1)
          importance := if isinstance_nx_DiGraph g then impPR u else impEV u
          betweenness :=
            match betweennessChoice g with
            | .exact => betwExact g u
            | .sampled k => betwSampled g k u
          clustering :=
            if isinstance_nx_Graph g then nx_clustering g u else 0 }))

/-- The directed three-cycle 0 -> 1 -> 2 -> 0. -/
def triDir : NxGraph := ⟨true, [0, 1, 2], [(0, 1), (1, 2), (2, 0)]⟩

/-- C5 failing input: on the directed three-cycle, the metrics reported by
calculate_node_metrics carry clustering coefficient 1/2 at every node, not 0:
isinstance(graph, nx.Graph) also holds for nx.DiGraph, so the source invokes
nx.clustering (the directed clustering coefficient) instead of the intended
all-zero branch. -/
theorem clustering_directed_nonzero :
    ((calculate_node_metrics triDir (fun _ => 0) (fun _ => 0) (fun _ _ => 0) (fun _ _ _ => 0)).map
      (fun m => m.2.clustering)) = [1/2, 1/2, 1/2] ∧ ((1 : ℚ)/2) ≠ 0 := by
  constructor
  · show _ = _
    norm_num [calculate_node_metrics, triDir, nx_clustering, dirTriangles, symA,
      adjN, degTotal, degBi, betweennessChoice, isinstance_nx_Graph, nxDegree]
  · norm_num

/-- C7: for any betweenness oracles, calculate_node_metrics computes
betweenness exactly for a graph with 499 nodes and by the random-sample
approximation with sample size min(100, n) = 100 for a graph with 501 nodes,
and in every case the returned metrics map carries an entry (hence a
betweenness score) for every node of the graph. -/
theorem betweenness_boundary (g : NxGraph) (impPR impEV : Nat → ℚ)
    (betwExact : NxGraph → Nat → ℚ) (betwSampled : NxGraph → Nat → Nat → ℚ) :
    (g.nodes.length = 499 → betweennessChoice g = .exact) ∧
    (g.nodes.length = 501 → betweennessChoice g = .sampled 100) ∧
    (∀ u ∈ g.nodes, ∃ m : NodeMetrics,
      (u, m) ∈ calculate_node_metrics g impPR impEV betwExact betwSampled) := by
  refine ⟨?_, ?_, ?_⟩
  · intro h
    simp [betweennessChoice, h]
  · intro h
    rw [betweennessChoice, h]
    norm_num
  · intro u hu
    have hlen : g.nodes.length ≠ 0 := by
      intro h0
      rw [List.length_eq_zero] at h0
      rw [h0] at hu
      exact absurd hu (List.not_mem_nil u)
    unfold calculate_node_metrics
    rw [if_neg hlen]
    exact ⟨_, List.mem_map_of_mem _ hu⟩

/-- Witness for C7: a 499-node graph takes the exact branch, a 501-node graph
the sampled branch with k = 100, and node 0 of the latter has a metrics
entry. -/
theorem betweenness_boundary_witness :
    betweennessChoice ⟨true, List.range 499, []⟩ = BetwChoice.exact ∧
    betweennessChoice ⟨false, List.range 501, []⟩ = BetwChoice.sampled 100 ∧
    ∃ m : NodeMetrics, (0, m) ∈ calculate_node_metrics ⟨false, List.range 501, []⟩
      (fun _ => 0) (fun _ => 0) (fun _ _ => 0) (fun _ _ _ => 0) :=
  ⟨(betweenness_boundary ⟨true, List.range 499, []⟩
      (fun _ => 0) (fun _ => 0) (fun _ _ => 0) (fun _ _ _ => 0)).1 (by simp),
   (betweenness_boundary ⟨false, List.range 501, []⟩
      (fun _ => 0) (fun _ => 0) (fun _ _ => 0) (fun _ _ _ => 0)).2.1 (by simp),
   (betweenness_boundary ⟨false, List.range 501, []⟩
      (fun _ => 0) (fun _ => 0) (fun _ _ => 0) (fun _ _ _ => 0)).2.2 0 (by simp)⟩

/-- The environment detect_communities runs in: the python-louvain package
is importable and best_partition succeeds (modelled by the partition it
returns), the import fails (ImportError), or the algorithm raises. -/
inductive LouvainEnv where
  | ok (partition : Nat → Nat)
  | importError
  | fails

/-- detect_communities (data_processor.py lines 572-602): an empty graph
yields the empty map; with Louvain available its partition is returned (the
directed-to-undirected conversion does not change the node set); on
ImportError every node is assigned its enumeration index as its own
singleton community; on any other exception every node is assigned community
0. No branch raises. -/
def detect_communities (g : NxGraph) (env : LouvainEnv) : List (Nat × Nat) :=
  if g.nodes.length = 0 then []
  else
    match env with
    | .ok f => g.nodes.map (fun u => (u, f u))
    | .importError => g.nodes.enum.map (fun p => (p.2, p.1))
    | .fails => g.nodes.map (fun u => (u, 0))

/-- C6: detect_communities returns a community assignment covering exactly
the nodes of the graph in every environment (in particular it never raises),
and when the Louvain algorithm is unavailable (ImportError) the assigned
community ids are pairwise distinct: every node is its own singleton
community. -/
theorem detect_communities_never_raises (g : NxGraph) (env : LouvainEnv) :
    ((detect_communities g env).map Prod.fst = g.nodes) ∧
    (env = .importError → ((detect_communities g env).map Prod.snd).Nodup) := by
  constructor
  · unfold detect_communities
    by_cases h0 : g.nodes.length = 0
    · rw [if_pos h0]
      rw [List.length_eq_zero] at h0
      rw [h0]
      rfl
    · rw [if_neg h0]
      cases env with
      | ok f =>
        rw [List.map_map]
        show List.map id g.nodes = g.nodes
        exact List.map_id g.nodes
      | importError =>
        rw [List.map_map]
        exact List.enum_map_snd g.nodes
      | fails =>
        rw [List.map_map]
        show List.map id g.nodes = g.nodes
        exact List.map_id g.nodes
  · intro henv
    subst henv
    unfold detect_communities
    by_cases h0 : g.nodes.length = 0
    · rw [if_pos h0]
      exact List.nodup_nil
    · rw [if_neg h0]
      rw [List.map_map]
      have : (Prod.snd ∘ fun p : Nat × Nat => (p.2, p.1)) = Prod.fst := rfl
      rw [this, List.enum_map_fst]
      exact List.nodup_range _

/-- Witness for C6: on a concrete two-node graph in the ImportError
environment, the nodes are covered and the community ids are distinct. -/
theorem detect_communities_never_raises_witness :
    ((detect_communities ⟨false, [7, 9], [(7, 9)]⟩ LouvainEnv.importError).map
      Prod.fst = [7, 9]) ∧
    ((detect_communities ⟨false, [7, 9], [(7, 9)]⟩ LouvainEnv.importError).map
      Prod.snd).Nodup :=
  ⟨(detect_communities_never_raises ⟨false, [7, 9], [(7, 9)]⟩ LouvainEnv.importError).1,
   (detect_communities_never_raises ⟨false, [7, 9], [(7, 9)]⟩ LouvainEnv.importError).2 rfl⟩

/-- A row of the paper-fields table of the sample dataset. -/
structure PaperFieldRow where
  paperid : String
  fieldid : String
deriving DecidableEq, Repr

/-- A row of the fields table: field id and display name. -/
structure FieldRow where
  fieldid : String
  display_name : String
deriving DecidableEq, Repr

/-- The SQL predicate display_name ILIKE the pattern wrapped in wildcards:
a case-insensitive substring test. -/
def ilikeContains (s pat : String) : Bool :=
  ((List.range ((s.toList.map Char.toLower).length + 1)).any (fun i =>
    (((s.toList.map Char.toLower).drop i).take (pat.toList.map Char.toLower).length) ==
      (pat.toList.map Char.toLower)))

/-- The LEFT JOIN of the paper-fields table with the fields table on fieldid
(query_executor.py lines 74-78): a paper-field row with no matching field row
keeps a null display name. -/
def leftJoinFields (pfs : List PaperFieldRow) (flds : List FieldRow) :
    List (PaperFieldRow × Option String) :=
  pfs.flatMap (fun pf =>
    if (flds.filter (fun f => decide (f.fieldid = pf.fieldid))) = [] then [(pf, none)]
    else (flds.filter (fun f => decide (f.fieldid = pf.fieldid))).map
      (fun f => (pf, some f.display_name)))

/-- The optional WHERE clause of get_papers_by_field (query_executor.py lines
80-85): with no field_name every row passes; with a pattern, a row passes iff
its display name is non-null and matches the ILIKE test (SQL three-valued
logic discards rows whose condition is NULL). -/
def fieldNameFilter (field_name : Option String)
    (row : PaperFieldRow × Option String) : Bool :=
  match field_name with
  | none => true
  | some pat =>
    match row.2 with
    | none => false
    | some d => ilikeContains d pat

/-- The GROUP BY pf.fieldid, f.display_name with COUNT(DISTINCT pf.paperid)
as paper_count (query_executor.py lines 75 and 87). -/
def byFieldGroups (rows : List (PaperFieldRow × Option String)) :
    List (String × Option String × Nat) :=
  (rows.map (fun r => (r.1.fieldid, r.2))).dedup.map (fun key =>
    (key.1, key.2,
      ((rows.filter (fun r => decide ((r.1.fieldid, r.2) = key))).map
        (fun r => r.1.paperid)).dedup.length))

/-- ORDER BY paper_count DESC (query_executor.py line 87). -/
def orderByCountDesc (l : List (String × Option String × Nat)) :
    List (String × Option String × Nat) :=
  l.insertionSort (fun a b => b.2.2 ≤ a.2.2)

/-- The optional LIMIT clause (query_executor.py lines 89-90); Python treats
a limit of 0 as falsy, so only a positive limit is appended. -/
def applyLimit (lim : Option Nat) (l : List (String × Option String × Nat)) :
    List (String × Option String × Nat) :=
  match lim with
  | some k => if 0 < k then l.take k else l
  | none => l

/-- get_papers_by_field (query_executor.py lines 66-107) over the
execute_query wrapper (lines 29-35). The columnar store is an oracle: none
models a store-level failure (missing parquet file or engine fault), which
execute_query wraps into a raised exception and get_papers_by_field
re-raises; a healthy store supplies the in-memory tables over which the
composed query is evaluated. -/
def get_papers_by_field (store : Option (List PaperFieldRow × List FieldRow))
    (lim : Option Nat) (field_name : Option String) :
    Except String (List (String × Option String × Nat)) :=
  match store with
  | none => .error "Query execution failed"
  | some (pfs, flds) =>
    .ok (applyLimit lim (orderByCountDesc (byFieldGroups
      ((leftJoinFields pfs flds).filter (fieldNameFilter field_name)))))

/-- Any display name appearing in the left join comes from the fields
table. -/
theorem leftJoinFields_display_mem {pfs : List PaperFieldRow}
    {flds : List FieldRow} {row : PaperFieldRow × Option String}
    (hrow : row ∈ leftJoinFields pfs flds) {d : String} (hd : row.2 = some d) :
    ∃ f ∈ flds, f.display_name = d := by
  unfold leftJoinFields at hrow
  simp only [List.mem_flatMap] at hrow
  obtain ⟨pf, _, hmem⟩ := hrow
  by_cases hnil : (flds.filter (fun f => decide (f.fieldid = pf.fieldid))) = []
  · rw [if_pos hnil] at hmem
    simp only [List.mem_singleton] at hmem
    rw [hmem] at hd
    exact absurd hd (by simp)
  · rw [if_neg hnil] at hmem
    obtain ⟨f, hf, hfe⟩ := List.mem_map.mp hmem
    refine ⟨f, (List.mem_filter.mp hf).1, ?_⟩
    rw [← hfe] at hd
    exact (Option.some.injEq _ _ ▸ hd)

/-- C9: a field-name predicate matching no field in the fields table makes
get_papers_by_field return an empty result table rather than raising, while
a store-level failure propagates as an error from execute_query. -/
theorem query_layer_error_policy (pfs : List PaperFieldRow)
    (flds : List FieldRow) (lim : Option Nat) (pat : String)
    (hnomatch : ∀ f ∈ flds, ilikeContains f.display_name pat = false) :
    get_papers_by_field (some (pfs, flds)) lim (some pat) = .ok [] ∧
    ∀ lim2 fn2, get_papers_by_field none lim2 fn2 =
      Except.error "Query execution failed" := by
  constructor
  · show Except.ok (applyLimit lim (orderByCountDesc (byFieldGroups
      ((leftJoinFields pfs flds).filter (fieldNameFilter (some pat)))))) = Except.ok []
    have hfilter : (leftJoinFields pfs flds).filter (fieldNameFilter (some pat)) = [] := by
      rw [List.filter_eq_nil_iff]
      intro row hrow
      unfold fieldNameFilter
      cases hr2 : row.2 with
      | none => simp
      | some d =>
        obtain ⟨f, hf, hfd⟩ := leftJoinFields_display_mem hrow hr2
        simp only [Bool.not_eq_true]
        rw [← hfd]
        exact hnomatch f hf
    rw [hfilter]
    show Except.ok (applyLimit lim []) = Except.ok []
    have happ : applyLimit lim [] = [] := by
      cases lim with
      | none => rfl
      | some k => by_cases hk : 0 < k <;> simp [applyLimit, hk]
    rw [happ]
  · intro lim2 fn2
    rfl

/-- Witness for C9: a pattern matching no display name of the concrete
fields table yields an empty result, and a failed store yields an error. -/
theorem query_layer_error_policy_witness :
    get_papers_by_field (some ([⟨"P1", "F1"⟩], [⟨"F1", "Biology"⟩])) (some 10)
      (some "Quantum") = .ok [] ∧
    ∀ lim2 fn2, get_papers_by_field none lim2 fn2 =
      Except.error "Query execution failed" :=
  query_layer_error_policy [⟨"P1", "F1"⟩] [⟨"F1", "Biology"⟩] (some 10) "Quantum"
    (by decide)

end SciSciNet
